import Mathlib

/-!
Shallow embedding of `src/main.py` (a single-file Streamlit app: an
AI plant-disease identifier front end).

The app keeps a per-session state (lines 64-73 of `main.py`), accepts a
leaf image by upload or camera capture (lines 95-115), and on the
"Identify Disease & Get Analysis" button serializes the cached image to
PNG, builds a fixed checklist instruction string, and submits one call to
the external generative model (lines 122-174).  A reset button clears the
session (lines 179-193) and a chat box forwards raw questions (199-207).

The external model call is treated as an oracle parameter of type
`Except String String` (either the response text, or the message of the
raised exception).  The imaging library (PIL) is modelled at the level
the claims need: `Image.open` decodes a byte stream whose leading
signature identifies a supported format (PNG or JPEG, the two formats
behind the uploader's `jpg`/`jpeg`/`png` allow-list) into an abstract
pixel raster, and `save(format="PNG")` emits a PNG stream, which by the
PNG specification begins with the fixed 8-byte PNG signature.  Bytes are
`List Nat`.
-/

set_option maxRecDepth 100000

namespace Disease

/-- The 8-byte signature that every PNG stream begins with
(mandated by the PNG specification). -/
def pngSignature : List Nat := [137, 80, 78, 71, 13, 10, 26, 10]

/-- The SOI/APP marker bytes that every JFIF/JPEG stream begins with. -/
def jpegSignature : List Nat := [255, 216, 255]

/-- Boolean list-prefix test (for byte streams and character lists). -/
def isStart {α : Type} [DecidableEq α] : List α → List α → Bool
  | [], _ => true
  | _ :: _, [] => false
  | a :: as, b :: bs => a = b && isStart as bs

/-- An in-memory decoded image (what `PIL.Image.open` returns):
an abstract pixel raster. -/
structure PILImage where
  pixels : List Nat
deriving DecidableEq

/-- Model of `PIL.Image.open` on a byte stream: a stream starting with
the PNG signature or the JPEG signature decodes to its pixel payload;
anything else fails (PIL raises `UnidentifiedImageError`). -/
def imageOpen (bytes : List Nat) : Option PILImage :=
  if isStart pngSignature bytes then
    some ⟨bytes.drop pngSignature.length⟩
  else if isStart jpegSignature bytes then
    some ⟨bytes.drop jpegSignature.length⟩
  else
    none

/-- Model of `img.save(buf, format="PNG")` followed by `buf.getvalue()`
(lines 125-127): a PNG stream carrying the image's pixel content.
Every PNG stream begins with `pngSignature`. -/
def pngSave (img : PILImage) : List Nat :=
  pngSignature ++ img.pixels

/-- The per-session state initialised at lines 14-15 and 64-73 of
`main.py` (`st.session_state`). -/
structure SessionState where
  theme : String
  uploaded_image : Option PILImage
  analysis_result : String
  camera_active : Bool
  uploader_key : Nat
  reset_triggered : Bool
deriving DecidableEq

/-- The state the initialisation block (lines 14-15, 64-73) produces for
a fresh session: every key absent from `st.session_state` gets its
default. -/
def initState : SessionState :=
  { theme := "light"
  , uploaded_image := none
  , analysis_result := ""
  , camera_active := false
  , uploader_key := 0
  , reset_triggered := false }

/-- Lines 101-102: the "Take Photo" button flips `camera_active`. -/
def toggleCamera (s : SessionState) : SessionState :=
  { s with camera_active := !s.camera_active }

/-- Lines 114-115: a pending uploaded file, if any, is decoded and
stored as the cached image; a decode failure propagates as the
uncaught `PIL` exception (modelled as `Except.error`). -/
def processUpload (s : SessionState) (upload : Option (List Nat)) :
    Except String SessionState :=
  match upload with
  | none => .ok s
  | some bytes =>
    match imageOpen bytes with
    | some img => .ok { s with uploaded_image := some img }
    | none => .error "cannot identify image file"

/-- Lines 104-115 of one script run: when the camera is active and a
capture completed, the pending upload is discarded (`uploaded_file =
None`, line 108), the capture is stored and the camera is closed
(lines 109-110); otherwise the pending upload, if any, is stored
(lines 114-115). -/
def imageInputStep (s : SessionState) (upload capture : Option (List Nat)) :
    Except String SessionState :=
  if s.camera_active then
    match capture with
    | some c =>
      match imageOpen c with
      | some img =>
        .ok { s with uploaded_image := some img, camera_active := false }
      | none => .error "cannot identify image file"
    | none => processUpload s upload
  else
    processUpload s upload

/-- Sixteen spaces: the indentation each line of the triple-quoted
f-string at lines 129-144 carries. -/
def sp16 : String := "                "

/-- The fixed part of the instruction f-string (lines 130-142): the
nine-point checklist, up to and including the formatting sentence. -/
def checklistBody : String :=
  "\n" ++ sp16 ++ "You are an expert agricultural AI assistant.\n" ++
  sp16 ++ "Analyze the given leaf image and identify:\n" ++
  sp16 ++ "1. The plant name\n" ++
  sp16 ++ "2. Disease Name\n" ++
  sp16 ++ "3. Cause/Pathogen\n" ++
  sp16 ++ "4. Symptoms\n" ++
  sp16 ++ "5. Severity Level (Low/Medium/High)\n" ++
  sp16 ++ "6. Precautions\n" ++
  sp16 ++ "7. Treatments (organic & chemical)\n" ++
  sp16 ++ "8. Impact on yield or quality\n" ++
  sp16 ++ "9. Future preventive measures\n" ++
  "\n" ++
  sp16 ++ "Format the response in a structured and visually clear way.\n"

/-- The full instruction string of lines 129-144, with the selected
language interpolated at line 143 (`Respond in {language}.`). -/
def promptFor (language : String) : String :=
  checklistBody ++ sp16 ++ "Respond in " ++ language ++ ".\n" ++ sp16

/-- The options of the language selectbox (lines 89-93); `index=0`
makes "English" the default when the user selects nothing. -/
def languageOptions : List String := ["English", "Telugu", "Hindi", "Tamil"]

/-- Number of occurrences of `pat` as a contiguous sublist of `s`. -/
def countOccs {α : Type} [DecidableEq α] (pat : List α) : List α → Nat
  | [] => 0
  | c :: rest => (if isStart pat (c :: rest) then 1 else 0) + countOccs pat rest

/-- How many language directives (`"Respond in "` fragments, line 143)
an instruction string contains. -/
def languageDirectiveCount (instruction : String) : Nat :=
  countOccs ("Respond in ").data instruction.data

/-- How many directives naming a given language (`"Respond in L."`)
an instruction string contains. -/
def directivesNaming (language : String) (instruction : String) : Nat :=
  countOccs ("Respond in " ++ language ++ ".").data instruction.data

/-- One payload handed to `model.generate_content` (lines 147-150):
the instruction text plus the image part
`\x7b"mime_type": "image/png", "data": img_bytes\x7d`. -/
structure ModelCall where
  prompt : String
  imageData : List Nat
  mimeType : String
deriving DecidableEq

/-- The `st.download_button` arguments (lines 156-161). -/
structure DownloadArtifact where
  label : String
  data : String
  fileName : String
  mimeType : String
deriving DecidableEq

/-- The bar chart of lines 164-171. -/
structure BarChart where
  categories : List String
  values : List Nat
deriving DecidableEq

/-- The hardcoded chart the analysis branch always draws
(lines 165-166): `diseases` and `values` are literals. -/
def sampleChart : BarChart :=
  { categories := ["Leaf Spot", "Blight", "Rust", "Healthy"]
  , values := [40, 35, 15, 10] }

/-- Everything observable from one click of the analysis button:
the updated session state, the calls submitted to the external model,
the error banner (if any), the download offer (if any) and the chart
(if drawn). -/
structure AnalyzeOutput where
  state : SessionState
  calls : List ModelCall
  errorMsg : Option String
  download : Option DownloadArtifact
  chart : Option BarChart
deriving DecidableEq

/-- Lines 118-174: the "Identify Disease & Get Analysis" handler.
The button only exists when a cached image is present (line 118).
Inside the `try` block the cached image is serialized to PNG
(lines 125-127), the instruction is built (129-144), and one call is
submitted (146-150); `response` is the external oracle.  On success the
response text is stored and displayed, the download button is offered
and the hardcoded chart drawn (152-171); on an exception the `except`
handler (173-174) shows the message and touches no session key. -/
def analyze (s : SessionState) (language : String)
    (response : Except String String) : AnalyzeOutput :=
  match s.uploaded_image with
  | none => ⟨s, [], none, none, none⟩
  | some img =>
    let call : ModelCall :=
      { prompt := promptFor language
      , imageData := pngSave img
      , mimeType := "image/png" }
    match response with
    | .ok text =>
      ⟨{ s with analysis_result := text }
      , [call]
      , none
      , some { label := "📥 Download Report"
             , data := text
             , fileName := "plant_disease_analysis.txt"
             , mimeType := "text/plain" }
      , some sampleChart⟩
    | .error e =>
      ⟨s, [call], some ("⚠️ Error: " ++ e), none, none⟩

/-- Line 184 with `trigger_reset` (179-180): the Reset button sets the
`reset_triggered` flag via `on_click`. -/
def triggerReset (s : SessionState) : SessionState :=
  { s with reset_triggered := true }

/-- Lines 187-193 followed by the top-of-script re-initialisation of
the next run: the handler remembers `uploader_key + 1`, deletes every
session key, restores `uploader_key`, and `st.rerun()` makes the
initialisation block (lines 14-15, 64-73) refill the deleted keys with
their defaults. -/
def resetCheck (s : SessionState) : SessionState :=
  if s.reset_triggered then
    { initState with uploader_key := s.uploader_key + 1 }
  else
    s

/-- The whole Reset interaction: the button click records the flag and
the rerun that `on_click` forces reaches the handler at line 187. -/
def resetCycle (s : SessionState) : SessionState :=
  resetCheck (triggerReset s)

/-- Lines 199-207: the AI Agribot chat.  `if query:` fires only on a
non-empty string, and `chat_model.generate_content(query)` receives the
raw question alone — no session key is read in this block, so the
submitted payloads depend on nothing but the question. -/
def chatSubmit (_s : SessionState) (query : String) : List String :=
  if query = "" then [] else [query]

/-! ## Helper lemmas and concrete fixtures -/

/-- A list is always a valid start of itself followed by anything. -/
theorem isStart_self_append {α : Type} [DecidableEq α] (xs ys : List α) :
    isStart xs (xs ++ ys) = true := by
  induction xs with
  | nil => rfl
  | cons a as ih => simp [isStart, ih]

/-- Re-opening a saved PNG stream recovers the same pixel raster. -/
theorem imageOpen_pngSave (img : PILImage) :
    imageOpen (pngSave img) = some img := by
  unfold imageOpen pngSave
  rw [if_pos (isStart_self_append pngSignature img.pixels)]
  rw [List.drop_left]

/-- Appending to a string starting with a character never gives `""`. -/
theorem error_banner_ne_empty (e : String) : "⚠️ Error: " ++ e ≠ "" := by
  intro h
  have h2 := congrArg String.length h
  rw [String.length_append] at h2
  have h3 : 0 < ("⚠️ Error: " : String).length := by decide
  have h4 : ("" : String).length = 0 := rfl
  rw [h4] at h2
  omega

/-- A concrete decoded image used to instantiate the theorems. -/
def cexImage : PILImage := ⟨[7, 7]⟩

/-- A concrete session state holding a cached image and a previous
analysis text. -/
def stateWithImage : SessionState :=
  { initState with uploaded_image := some cexImage
                 , analysis_result := "previous report" }

/-! ## Claims -/

/-- C7: toggling the camera-visible flag twice (lines 101-102) returns
the whole session state — cached image and analysis text included — to
its original value; and a script run with no capture and no pending
upload leaves the state untouched. -/
theorem toggleCamera_twice_id (s : SessionState) :
    toggleCamera (toggleCamera s) = s ∧
    imageInputStep (toggleCamera s) none none = .ok (toggleCamera s) := by
  constructor
  · simp [toggleCamera]
  · by_cases h : (toggleCamera s).camera_active <;>
      simp [imageInputStep, processUpload, h]

/-- C4: the Reset interaction (lines 179-193 plus re-initialisation)
clears the cached image, the analysis text and the camera flag to their
initial values and strictly increments the uploader identity counter. -/
theorem reset_clears_session (s : SessionState) :
    (resetCycle s).uploaded_image = none ∧
    (resetCycle s).analysis_result = "" ∧
    (resetCycle s).camera_active = false ∧
    s.uploader_key < (resetCycle s).uploader_key := by
  refine ⟨rfl, rfl, rfl, ?_⟩
  show s.uploader_key < s.uploader_key + 1
  exact Nat.lt_succ_self _

/-- C9: the Agribot chat (lines 199-207) submits exactly the raw
question text — no added instruction, history or analysis context — so
the payload list is the same in any two session states sharing the
question. -/
theorem chat_raw_and_stateless (s₁ s₂ : SessionState) (q : String)
    (h : q ≠ "") :
    chatSubmit s₁ q = [q] ∧ chatSubmit s₂ q = [q] ∧
    chatSubmit s₁ q = chatSubmit s₂ q := by
  refine ⟨?_, ?_, rfl⟩ <;> simp [chatSubmit, h]

/-- C9 witness: concrete instantiation in two different session
states. -/
theorem chat_raw_and_stateless_witness :
    chatSubmit stateWithImage "What fertilizer should I use?" =
      ["What fertilizer should I use?"] ∧
    chatSubmit initState "What fertilizer should I use?" =
      ["What fertilizer should I use?"] ∧
    chatSubmit stateWithImage "What fertilizer should I use?" =
      chatSubmit initState "What fertilizer should I use?" :=
  chat_raw_and_stateless stateWithImage initState
    "What fertilizer should I use?" (by decide)

/-- C8: after a successful analysis the chart drawn at lines 164-171 is
the hardcoded `sampleChart`, whatever text the model returned: four
fixed categories with fixed percentage values. -/
theorem chart_is_hardcoded (s : SessionState) (img : PILImage)
    (language text : String) (h : s.uploaded_image = some img) :
    (analyze s language (.ok text)).chart = some sampleChart ∧
    sampleChart.categories = ["Leaf Spot", "Blight", "Rust", "Healthy"] ∧
    sampleChart.values = [40, 35, 15, 10] := by
  refine ⟨?_, rfl, rfl⟩
  simp [analyze, h]

/-- C8 witness: the chart at a concrete state and response text. -/
theorem chart_is_hardcoded_witness :
    (analyze stateWithImage "English" (.ok "any response")).chart =
      some sampleChart ∧
    sampleChart.categories = ["Leaf Spot", "Blight", "Rust", "Healthy"] ∧
    sampleChart.values = [40, 35, 15, 10] :=
  chart_is_hardcoded stateWithImage cexImage "English" "any response" rfl

/-- C3: when the external call raises (modelled by `.error e`), the
`except` handler at lines 173-174 leaves the session state — in
particular the stored analysis text and the cached image — unchanged
and surfaces a non-empty error banner. -/
theorem analyze_error_leaves_state (s : SessionState) (img : PILImage)
    (language e : String) (h : s.uploaded_image = some img) :
    (analyze s language (.error e)).state = s ∧
    (analyze s language (.error e)).state.analysis_result =
      s.analysis_result ∧
    (analyze s language (.error e)).state.uploaded_image =
      s.uploaded_image ∧
    (analyze s language (.error e)).errorMsg = some ("⚠️ Error: " ++ e) ∧
    "⚠️ Error: " ++ e ≠ "" := by
  refine ⟨?_, ?_, ?_, ?_, error_banner_ne_empty e⟩ <;> simp [analyze, h]

/-- C3 witness: a failing call on a concrete state with a previous
report and cached image. -/
theorem analyze_error_leaves_state_witness :
    (analyze stateWithImage "English" (.error "quota exceeded")).state =
      stateWithImage ∧
    (analyze stateWithImage "English"
        (.error "quota exceeded")).state.analysis_result =
      stateWithImage.analysis_result ∧
    (analyze stateWithImage "English"
        (.error "quota exceeded")).state.uploaded_image =
      stateWithImage.uploaded_image ∧
    (analyze stateWithImage "English" (.error "quota exceeded")).errorMsg =
      some ("⚠️ Error: " ++ "quota exceeded") ∧
    "⚠️ Error: " ++ "quota exceeded" ≠ "" :=
  analyze_error_leaves_state stateWithImage cexImage "English"
    "quota exceeded" rfl

/-- The nine checklist phrases of lines 132-140 of `main.py`. -/
def checklistItems : List String :=
  [ "1. The plant name"
  , "2. Disease Name"
  , "3. Cause/Pathogen"
  , "4. Symptoms"
  , "5. Severity Level (Low/Medium/High)"
  , "6. Precautions"
  , "7. Treatments (organic & chemical)"
  , "8. Impact on yield or quality"
  , "9. Future preventive measures" ]

/-- C5: with a cached image present, one click of the analysis button
submits exactly one external call, whose text is the fixed instruction
string containing each of the nine checklist points (severity graded
Low/Medium/High), and whose image part is the cached image serialized
to PNG, tagged `"image/png"`. -/
theorem analyze_single_checklist_call (s : SessionState) (img : PILImage)
    (language : String) (response : Except String String)
    (h : s.uploaded_image = some img) :
    (analyze s language response).calls =
      [{ prompt := promptFor language
       , imageData := pngSave img
       , mimeType := "image/png" }] ∧
    promptFor language =
      checklistBody ++ sp16 ++ "Respond in " ++ language ++ ".\n" ++ sp16 ∧
    (checklistItems.all
      (fun item => 0 < countOccs item.data checklistBody.data)) = true := by
  refine ⟨?_, rfl, by decide⟩
  cases response <;> simp [analyze, h]

/-- C5 witness: a concrete state, language and stub response. -/
theorem analyze_single_checklist_call_witness :
    (analyze stateWithImage "English" (.ok "stub")).calls =
      [{ prompt := promptFor "English"
       , imageData := pngSave cexImage
       , mimeType := "image/png" }] ∧
    promptFor "English" =
      checklistBody ++ sp16 ++ "Respond in " ++ "English" ++ ".\n" ++ sp16 ∧
    (checklistItems.all
      (fun item => 0 < countOccs item.data checklistBody.data)) = true :=
  analyze_single_checklist_call stateWithImage cexImage "English"
    (.ok "stub") rfl

/-- C6: on success the stored analysis text equals the response text
and the download button (lines 156-161) offers exactly that text, under
the fixed file name `plant_disease_analysis.txt` with MIME
`text/plain` — no transformation. -/
theorem download_is_exact_text (s : SessionState) (img : PILImage)
    (language text : String) (h : s.uploaded_image = some img) :
    (analyze s language (.ok text)).state.analysis_result = text ∧
    (analyze s language (.ok text)).download =
      some { label := "📥 Download Report"
           , data := text
           , fileName := "plant_disease_analysis.txt"
           , mimeType := "text/plain" } := by
  constructor <;> simp [analyze, h]

/-- C6 witness: the scenario of the spec, with stub response
`"Plant: Tomato; Disease: Blight"`. -/
theorem download_is_exact_text_witness :
    (analyze stateWithImage "English"
        (.ok "Plant: Tomato; Disease: Blight")).state.analysis_result =
      "Plant: Tomato; Disease: Blight" ∧
    (analyze stateWithImage "English"
        (.ok "Plant: Tomato; Disease: Blight")).download =
      some { label := "📥 Download Report"
           , data := "Plant: Tomato; Disease: Blight"
           , fileName := "plant_disease_analysis.txt"
           , mimeType := "text/plain" } :=
  download_is_exact_text stateWithImage cexImage "English"
    "Plant: Tomato; Disease: Blight" rfl

/-- C10: in a script run where the camera is active, a capture
completed and an upload is pending, line 108 discards the upload before
the storage step of lines 114-115 runs: the capture becomes the cached
image, whatever the pending upload was. -/
theorem capture_overrides_pending_upload (s : SessionState)
    (up c : List Nat) (img : PILImage)
    (hcam : s.camera_active = true) (hdec : imageOpen c = some img) :
    imageInputStep s (some up) (some c) =
      .ok { s with uploaded_image := some img, camera_active := false } := by
  simp [imageInputStep, hcam, hdec]

/-- C10 witness: a pending JPEG upload loses to a concrete PNG
capture. -/
theorem capture_overrides_pending_upload_witness :
    imageInputStep { initState with camera_active := true }
        (some [255, 216, 255, 9])
        (some [137, 80, 78, 71, 13, 10, 26, 10, 5]) =
      .ok { { initState with camera_active := true } with
              uploaded_image := some ⟨[5]⟩, camera_active := false } :=
  capture_overrides_pending_upload { initState with camera_active := true }
    [255, 216, 255, 9] [137, 80, 78, 71, 13, 10, 26, 10, 5] ⟨[5]⟩
    rfl (by decide)

/-- C2 counterexample: uploading the well-formed minimal JPEG stream
`[255, 216, 255, 42]` does populate the cached image, but the
decode/encode-to-PNG step of lines 125-127 emits a PNG stream (starting
with the PNG signature), which is not byte-identical to the uploaded
JPEG bytes. -/
theorem upload_roundtrip_counterexample :
    imageInputStep initState (some [255, 216, 255, 42]) none =
      .ok { initState with uploaded_image := some ⟨[42]⟩ } ∧
    pngSave ⟨[42]⟩ ≠ [255, 216, 255, 42] :=
  ⟨rfl, by decide⟩

/-- C2 amended: uploading a well-formed supported file stores its
decoded raster as the cached image, and the encode-to-PNG step yields a
PNG stream that carries the same pixel content (decoding it recovers
the cached image) — but not, in general, the original file's bytes. -/
theorem upload_stores_and_reencode_preserves_pixels (s : SessionState)
    (bytes : List Nat) (img : PILImage)
    (hcam : s.camera_active = false) (hdec : imageOpen bytes = some img) :
    imageInputStep s (some bytes) none =
      .ok { s with uploaded_image := some img } ∧
    isStart pngSignature (pngSave img) = true ∧
    imageOpen (pngSave img) = some img := by
  refine ⟨?_, isStart_self_append pngSignature img.pixels,
    imageOpen_pngSave img⟩
  simp [imageInputStep, hcam, processUpload, hdec]

/-- C2 witness: a concrete PNG upload. -/
theorem upload_stores_and_reencode_preserves_pixels_witness :
    imageInputStep initState
        (some [137, 80, 78, 71, 13, 10, 26, 10, 3, 1]) none =
      .ok { initState with uploaded_image := some ⟨[3, 1]⟩ } ∧
    isStart pngSignature (pngSave ⟨[3, 1]⟩) = true ∧
    imageOpen (pngSave ⟨[3, 1]⟩) = some ⟨[3, 1]⟩ :=
  upload_stores_and_reencode_preserves_pixels initState
    [137, 80, 78, 71, 13, 10, 26, 10, 3, 1] ⟨[3, 1]⟩ rfl (by decide)

/-- C1 counterexample: with no language selection the selectbox
(lines 89-93, `index=0`) leaves `language = "English"`, and the
instruction submitted by a concrete analysis run contains one language
directive (`Respond in English.`, line 143) — not zero as claimed. -/
theorem default_language_directive_counterexample :
    (analyze stateWithImage "English" (.ok "stub")).calls =
      [{ prompt := promptFor "English"
       , imageData := pngSave cexImage
       , mimeType := "image/png" }] ∧
    languageDirectiveCount (promptFor "English") = 1 ∧
    ¬ languageDirectiveCount (promptFor "English") = 0 := by
  refine ⟨rfl, by decide, by decide⟩

/-- C1 amended: the submitted instruction always carries exactly one
language directive: with no selection it names the default language
English; selecting Telugu makes it the single directive naming
Telugu. -/
theorem one_language_directive (s : SessionState) (img : PILImage)
    (response : Except String String) (h : s.uploaded_image = some img) :
    (analyze s "English" response).calls.map ModelCall.prompt =
      [promptFor "English"] ∧
    languageDirectiveCount (promptFor "English") = 1 ∧
    directivesNaming "English" (promptFor "English") = 1 ∧
    (analyze s "Telugu" response).calls.map ModelCall.prompt =
      [promptFor "Telugu"] ∧
    languageDirectiveCount (promptFor "Telugu") = 1 ∧
    directivesNaming "Telugu" (promptFor "Telugu") = 1 := by
  refine ⟨?_, by decide, by decide, ?_, by decide, by decide⟩ <;>
    cases response <;> simp [analyze, h]

/-- C1 witness: the amended property at a concrete state and stub
response. -/
theorem one_language_directive_witness :
    (analyze stateWithImage "English" (.ok "r")).calls.map
        ModelCall.prompt = [promptFor "English"] ∧
    languageDirectiveCount (promptFor "English") = 1 ∧
    directivesNaming "English" (promptFor "English") = 1 ∧
    (analyze stateWithImage "Telugu" (.ok "r")).calls.map
        ModelCall.prompt = [promptFor "Telugu"] ∧
    languageDirectiveCount (promptFor "Telugu") = 1 ∧
    directivesNaming "Telugu" (promptFor "Telugu") = 1 :=
  one_language_directive stateWithImage cexImage (.ok "r") rfl

end Disease
